import Mathlib

/-!
Verification of the hail python binding layer (src/python/hail/context.py and
src/python/hail/keytable.py) against its natural-language specification.

The two classes `HailContext` and `KeyTable` are facades over a remote JVM
engine reached through a py4j bridge.  We embed each method as a pure Lean
function from the local object state (and, where the method consults the
remote object, the remote object's current answers) to the triple

    result × receiver-state-after-the-call × list-of-remote-calls-made.

The list of remote calls records exactly which remote methods were invoked
and with which arguments, so that claims about argument forwarding, call
counts and error handling can be stated and settled.  Values returned by
remote calls that create new remote objects are modelled as handles
(natural numbers) supplied as explicit `resp` arguments, since the bridge
treats them as opaque.
-/

namespace Hail

/-- Modelled from the spec: `TStruct` (hail/type.py, not under src/) is the local
representation of a remote struct signature; the facade only constructs,
caches and returns it, so we model it as a record of field names and the
printed form of their types. -/
structure TStruct where
  fields : List (String × String)
deriving DecidableEq

/-- Embedding of the state of a `HailContext` object as set up by
`HailContext.__init__` (src/python/hail/context.py lines 42-67): handles to
the remote HailContext, its SparkContext, its SQLContext, the local pyspark
SQLContext wrapper, and the local SparkContext reference (`self.sc`, which
`stop` sets to None). -/
structure HailContextState where
  _jhc : Nat
  _jsc : Nat
  _jsql_context : Nat
  _sql_context : Nat
  sc : Option Nat
deriving DecidableEq

/-- Embedding of the state of a `KeyTable` object as set up by
`KeyTable.__init__` (src/python/hail/keytable.py lines 50-57): the context
reference, the remote handle `self._jkt`, and the four memoization fields
`self._schema`, `self._num_columns`, `self._key_names`,
`self._column_names`, all initialized to None. -/
structure KeyTable where
  hc : HailContextState
  _jkt : Nat
  _schema : Option TStruct
  _num_columns : Option Nat
  _key_names : Option (List String)
  _column_names : Option (List String)
deriving DecidableEq

/-- Embedding of `KeyTable.__init__` (keytable.py lines 50-57). -/
def KeyTable.init (hc : HailContextState) (jkt : Nat) : KeyTable :=
  { hc := hc, _jkt := jkt, _schema := none, _num_columns := none,
    _key_names := none, _column_names := none }

/-- The answers the remote JVM KeyTable object currently gives to the
accessor methods the facade uses (`nFields`, `signature`, `keyNames`,
`fieldNames`, `nRows`).  Passed explicitly to the embedded methods that
consult the remote object. -/
structure JKeyTable where
  nFields : Nat
  signature : TStruct
  keyNames : List String
  fieldNames : List String
  nRows : Nat
deriving DecidableEq

/-- Embedding of the facade for a pyspark `DataFrame` (external library):
the wrapped remote handle and the local sql context reference, as built by
`DataFrame(jkt.toDF(self.hc._jsql_context), self.hc._sql_context)`. -/
structure DataFrame where
  _jdf : Nat
  sql_ctx : Nat
deriving DecidableEq

/-- Modelled from the spec: `VariantDataset` (hail/dataset.py, not under
src/) is a facade object holding only the context reference and the wrapped
remote handle, as built by `VariantDataset(self, jvds)`. -/
structure VariantDataset where
  hc : HailContextState
  _jvds : Nat
deriving DecidableEq

/-- The argument of `KeyTable.rename` is forwarded verbatim to the remote
`rename`; it is either a list of new names or a dict of old-to-new names
(keytable.py lines 355-380). -/
inductive RenameArg where
  | list (names : List String)
  | dict (pairs : List (String × String))
deriving DecidableEq

/-- One remote invocation over the py4j bridge, with the arguments the
facade passed.  Each constructor corresponds to one remote method used in
context.py or keytable.py; handles of remote objects are naturals. -/
inductive RemoteCall where
  | nFields (jkt : Nat)
  | signature (jkt : Nat)
  | keyNames (jkt : Nat)
  | fieldNames (jkt : Nat)
  | nRows (jkt : Nat)
  | same (jkt other : Nat)
  | exportCall (jkt jsc : Nat) (output : String) (typesFile : Option String)
  | filter (jkt : Nat) (condition : String) (keep : Bool)
  | annotate (jkt : Nat) (expr : String)
  | join (jkt rightJkt : Nat) (how : String)
  | aggregate (jkt : Nat) (keyExpr aggExpr : String)
  | forallCall (jkt : Nat) (code : String)
  | existsCall (jkt : Nat) (code : String)
  | rename (jkt : Nat) (columnNames : RenameArg)
  | expandTypes (jkt : Nat)
  | select (jkt : Nat) (columnNames keyNames : List String)
  | flatten (jkt : Nat)
  | toDF (jkt jsqlContext : Nat)
  | toPandas (jdf : Nat)
  | exportMongoDB (jsqlContext jkt : Nat) (mode : String)
  | explode (jkt : Nat) (columnNames : List String)
  | importBgens (path : List String) (sampleFile : Option String)
      (tolerance : Rat) (npartitions : Option Nat) (compress : Bool)
  | grep (regex : String) (path : List String) (maxCount : Nat)
  | scStop
deriving DecidableEq

/-- Modelled from the spec: `jindexed_seq_args` (hail/java.py, not under
src/) is the documented serialization wrapper applied to str-or-list
arguments; a single string becomes a one-element sequence and a list passes
through unchanged. -/
def jindexed_seq_args : Sum String (List String) → List String
  | Sum.inl s => [s]
  | Sum.inr l => l

/-- Embedding of the property `KeyTable.num_columns` (keytable.py lines
62-74): return the memoized value if present, otherwise call the remote
`nFields`, store the answer, and return it.  The Bool-free triple is
(value, receiver state after the read, remote calls made). -/
def KeyTable.num_columns (kt : KeyTable) (remote : JKeyTable) :
    Nat × KeyTable × List RemoteCall :=
  match kt._num_columns with
  | some n => (n, kt, [])
  | none =>
      (remote.nFields,
       { kt with _num_columns := some remote.nFields },
       [RemoteCall.nFields kt._jkt])

/-- Embedding of the property `KeyTable.schema` (keytable.py lines 76-100):
memoized conversion of the remote `signature()` to a local `TStruct`. -/
def KeyTable.schema (kt : KeyTable) (remote : JKeyTable) :
    TStruct × KeyTable × List RemoteCall :=
  match kt._schema with
  | some s => (s, kt, [])
  | none =>
      (remote.signature,
       { kt with _schema := some remote.signature },
       [RemoteCall.signature kt._jkt])

/-- Embedding of the property `KeyTable.key_names` (keytable.py lines
102-114): memoized copy of the remote `keyNames()`. -/
def KeyTable.key_names (kt : KeyTable) (remote : JKeyTable) :
    List String × KeyTable × List RemoteCall :=
  match kt._key_names with
  | some ns => (ns, kt, [])
  | none =>
      (remote.keyNames,
       { kt with _key_names := some remote.keyNames },
       [RemoteCall.keyNames kt._jkt])

/-- Embedding of the property `KeyTable.column_names` (keytable.py lines
116-128): memoized copy of the remote `fieldNames()`. -/
def KeyTable.column_names (kt : KeyTable) (remote : JKeyTable) :
    List String × KeyTable × List RemoteCall :=
  match kt._column_names with
  | some ns => (ns, kt, [])
  | none =>
      (remote.fieldNames,
       { kt with _column_names := some remote.fieldNames },
       [RemoteCall.fieldNames kt._jkt])

/-- Embedding of `KeyTable.count_rows` (keytable.py lines 130-140): one
remote `nRows()` call, returning the count unwrapped. -/
def KeyTable.count_rows (kt : KeyTable) (remote : JKeyTable) :
    Nat × KeyTable × List RemoteCall :=
  (remote.nRows, kt, [RemoteCall.nRows kt._jkt])

/-- Embedding of `KeyTable.same` (keytable.py lines 142-157); the remote
boolean answer is supplied explicitly. -/
def KeyTable.same (kt other : KeyTable) (answer : Bool) :
    Bool × KeyTable × List RemoteCall :=
  (answer, kt, [RemoteCall.same kt._jkt other._jkt])

/-- Embedding of `KeyTable.export` (keytable.py lines 159-175): one remote
`export(self.hc._jsc, output, types_file)` call, no return value. -/
def KeyTable.export_ (kt : KeyTable) (output : String)
    (types_file : Option String) : Unit × KeyTable × List RemoteCall :=
  ((), kt, [RemoteCall.exportCall kt._jkt kt.hc._jsc output types_file])

/-- Embedding of `KeyTable.filter` (keytable.py lines 177-209): one remote
`filter(condition, keep)` call, result wrapped in a fresh KeyTable; `resp`
is the handle the remote call returns. -/
def KeyTable.filter (kt : KeyTable) (condition : String) (keep : Bool)
    (resp : Nat) : KeyTable × KeyTable × List RemoteCall :=
  (KeyTable.init kt.hc resp, kt, [RemoteCall.filter kt._jkt condition keep])

/-- Embedding of `KeyTable.annotate` (keytable.py lines 211-239): a list
argument is joined with "," before the single remote `annotate` call. -/
def KeyTable.annotate (kt : KeyTable) (expr : Sum String (List String))
    (resp : Nat) : KeyTable × KeyTable × List RemoteCall :=
  let e := match expr with
    | Sum.inl s => s
    | Sum.inr l => String.intercalate "," l
  (KeyTable.init kt.hc resp, kt, [RemoteCall.annotate kt._jkt e])

/-- Embedding of `KeyTable.join` (keytable.py lines 241-272, note: not
decorated with handle_py4j): one remote `join(right._jkt, how)` call. -/
def KeyTable.join (kt right : KeyTable) (how : String) (resp : Nat) :
    KeyTable × KeyTable × List RemoteCall :=
  (KeyTable.init kt.hc resp, kt, [RemoteCall.join kt._jkt right._jkt how])

/-- Embedding of `KeyTable.aggregate_by_key` (keytable.py lines 274-317):
list arguments are joined (key expressions with ",", aggregation
expressions with ", ") before the single remote `aggregate` call. -/
def KeyTable.aggregate_by_key (kt : KeyTable)
    (key_expr agg_expr : Sum String (List String)) (resp : Nat) :
    KeyTable × KeyTable × List RemoteCall :=
  let ke := match key_expr with
    | Sum.inl s => s
    | Sum.inr l => String.intercalate "," l
  let ae := match agg_expr with
    | Sum.inl s => s
    | Sum.inr l => String.intercalate ", " l
  (KeyTable.init kt.hc resp, kt, [RemoteCall.aggregate kt._jkt ke ae])

/-- Embedding of `KeyTable.forall` (keytable.py lines 319-335). -/
def KeyTable.forall_ (kt : KeyTable) (code : String) (answer : Bool) :
    Bool × KeyTable × List RemoteCall :=
  (answer, kt, [RemoteCall.forallCall kt._jkt code])

/-- Embedding of `KeyTable.exists` (keytable.py lines 337-353). -/
def KeyTable.exists_ (kt : KeyTable) (code : String) (answer : Bool) :
    Bool × KeyTable × List RemoteCall :=
  (answer, kt, [RemoteCall.existsCall kt._jkt code])

/-- Embedding of `KeyTable.rename` (keytable.py lines 355-380): the
list-or-dict argument is forwarded verbatim to the remote `rename`. -/
def KeyTable.rename (kt : KeyTable) (column_names : RenameArg) (resp : Nat) :
    KeyTable × KeyTable × List RemoteCall :=
  (KeyTable.init kt.hc resp, kt, [RemoteCall.rename kt._jkt column_names])

/-- Embedding of `KeyTable.expand_types` (keytable.py lines 382-400). -/
def KeyTable.expand_types (kt : KeyTable) (resp : Nat) :
    KeyTable × KeyTable × List RemoteCall :=
  (KeyTable.init kt.hc resp, kt, [RemoteCall.expandTypes kt._jkt])

/-- Embedding of `KeyTable.key_by` (keytable.py lines 402-431): reads the
`column_names` property (which may itself make a remote `fieldNames` call
and populate the receiver's cache) and then makes one remote
`select(self.column_names, key_names)` call. -/
def KeyTable.key_by (kt : KeyTable) (key_names : List String)
    (remote : JKeyTable) (resp : Nat) :
    KeyTable × KeyTable × List RemoteCall :=
  let r := kt.column_names remote
  (KeyTable.init kt.hc resp, r.2.1,
   r.2.2 ++ [RemoteCall.select kt._jkt r.1 key_names])

/-- Embedding of `KeyTable.flatten` (keytable.py lines 433-481). -/
def KeyTable.flatten (kt : KeyTable) (resp : Nat) :
    KeyTable × KeyTable × List RemoteCall :=
  (KeyTable.init kt.hc resp, kt, [RemoteCall.flatten kt._jkt])

/-- Embedding of `KeyTable.select` (keytable.py lines 483-518): the new key
names are the members of the `key_names` property that occur in the
requested `column_names`, in key order; one remote `select` call follows. -/
def KeyTable.select (kt : KeyTable) (column_names : List String)
    (remote : JKeyTable) (resp : Nat) :
    KeyTable × KeyTable × List RemoteCall :=
  let r := kt.key_names remote
  let new_key_names := r.1.filter (fun k => decide (k ∈ column_names))
  (KeyTable.init kt.hc resp, r.2.1,
   r.2.2 ++ [RemoteCall.select kt._jkt column_names new_key_names])

/-- Embedding of `KeyTable.to_dataframe` (keytable.py lines 520-539): chain
of remote calls `expandTypes()` (if expand), `flatten()` (if flatten) and
`toDF(self.hc._jsql_context)`, each on the handle the previous call
returned; `respExpand`, `respFlatten`, `respDF` are the returned handles. -/
def KeyTable.to_dataframe (kt : KeyTable) (expand flatten : Bool)
    (respExpand respFlatten respDF : Nat) :
    DataFrame × KeyTable × List RemoteCall :=
  let s1 := if expand then (respExpand, [RemoteCall.expandTypes kt._jkt])
            else (kt._jkt, [])
  let s2 := if flatten then (respFlatten, [RemoteCall.flatten s1.1])
            else (s1.1, [])
  ({ _jdf := respDF, sql_ctx := kt.hc._sql_context }, kt,
   s1.2 ++ s2.2 ++ [RemoteCall.toDF s2.1 kt.hc._jsql_context])

/-- Embedding of `KeyTable.to_pandas` (keytable.py lines 541-556):
`to_dataframe(expand, flatten)` followed by a remote `toPandas()` on the
resulting dataframe handle; the pandas result is a plain local value. -/
def KeyTable.to_pandas (kt : KeyTable) (expand flatten : Bool)
    (respExpand respFlatten respDF : Nat) :
    Nat × KeyTable × List RemoteCall :=
  let r := kt.to_dataframe expand flatten respExpand respFlatten respDF
  (r.1._jdf, r.2.1, r.2.2 ++ [RemoteCall.toPandas r.1._jdf])

/-- Embedding of `KeyTable.export_mongodb` (keytable.py lines 558-562). -/
def KeyTable.export_mongodb (kt : KeyTable) (mode : String) :
    Unit × KeyTable × List RemoteCall :=
  ((), kt, [RemoteCall.exportMongoDB kt.hc._jsql_context kt._jkt mode])

/-- Embedding of `KeyTable.explode` (keytable.py lines 564-626): a single
string argument is wrapped into a one-element list before the single
remote `explode` call. -/
def KeyTable.explode (kt : KeyTable)
    (column_names : Sum String (List String)) (resp : Nat) :
    KeyTable × KeyTable × List RemoteCall :=
  let cols := match column_names with
    | Sum.inl s => [s]
    | Sum.inr l => l
  (KeyTable.init kt.hc resp, kt, [RemoteCall.explode kt._jkt cols])

/-- Embedding of `HailContext.grep` (context.py lines 69-95): one remote
`grep(regex, jindexed_seq_args(path), max_count)` call; the method returns
None. -/
def HailContext.grep (hc : HailContextState) (regex : String)
    (path : Sum String (List String)) (max_count : Nat) :
    Unit × List RemoteCall :=
  ((), [RemoteCall.grep regex (jindexed_seq_args path) max_count])

/-- Embedding of `HailContext.import_bgen` (context.py lines 126-150).  The
remote call in the source is
`importBgens(jindexed_seq_args(path), joption(sample_file), tolerance,
joption(npartitions), True)` - the compress position holds the literal
True, not the `compress` parameter. -/
def HailContext.import_bgen (hc : HailContextState)
    (path : Sum String (List String)) (tolerance : Rat)
    (sample_file : Option String) (npartitions : Option Nat)
    (compress : Bool) (resp : Nat) : VariantDataset × List RemoteCall :=
  ({ hc := hc, _jvds := resp },
   [RemoteCall.importBgens (jindexed_seq_args path) sample_file tolerance
      npartitions true])

/-- Embedding of `HailContext.stop` (context.py lines 546-549, note: not
decorated with handle_py4j): stop the local SparkContext (a bridge call)
and clear `self.sc`. -/
def HailContext.stop (hc : HailContextState) :
    HailContextState × List RemoteCall :=
  ({ hc with sc := none }, [RemoteCall.scStop])

/-- The methods of `HailContext` (context.py) and `KeyTable` (keytable.py),
including the four property accessors; `__init__` is excluded.  Every
method listed here makes at least one call across the py4j bridge.
`repr` stands for `__repr__`, `export_` for `export`, `forall_` for
`forall`, `exists_` for `exists`, and `typecheck` for `_typecheck`. -/
inductive Method where
  | grep
  | import_annotations_table
  | import_bgen
  | import_gen
  | import_keytable
  | import_plink
  | read
  | write_partitioning
  | import_vcf
  | index_bgen
  | balding_nichols_model
  | dataframe_to_keytable
  | stop
  | repr
  | num_columns
  | schema
  | key_names
  | column_names
  | count_rows
  | same
  | export_
  | filter
  | annotate
  | join
  | aggregate_by_key
  | forall_
  | exists_
  | rename
  | expand_types
  | key_by
  | flatten
  | select
  | to_dataframe
  | to_pandas
  | export_mongodb
  | explode
  | typecheck
deriving DecidableEq, Fintype

/-- Whether the method's python name makes it public (it does not start
with an underscore); `__repr__` and `_typecheck` are the only non-public
entries. -/
def isPublic : Method → Bool
  | Method.repr => false
  | Method.typecheck => false
  | _ => true

/-- Whether the method is decorated with `@handle_py4j` in the source.
From context.py: every method from `grep` (line 69) through
`dataframe_to_keytable` (line 516) carries the decorator; `stop`
(line 546) does not.  From keytable.py: `__repr__` (line 59) and the four
properties (lines 62, 76, 102, 116) carry only `@property` or nothing, and
`join` (line 241) carries no decorator; every other method does. -/
def decoratedHandlePy4j : Method → Bool
  | Method.grep => true
  | Method.import_annotations_table => true
  | Method.import_bgen => true
  | Method.import_gen => true
  | Method.import_keytable => true
  | Method.import_plink => true
  | Method.read => true
  | Method.write_partitioning => true
  | Method.import_vcf => true
  | Method.index_bgen => true
  | Method.balding_nichols_model => true
  | Method.dataframe_to_keytable => true
  | Method.stop => false
  | Method.repr => false
  | Method.num_columns => false
  | Method.schema => false
  | Method.key_names => false
  | Method.column_names => false
  | Method.count_rows => true
  | Method.same => true
  | Method.export_ => true
  | Method.filter => true
  | Method.annotate => true
  | Method.join => false
  | Method.aggregate_by_key => true
  | Method.forall_ => true
  | Method.exists_ => true
  | Method.rename => true
  | Method.expand_types => true
  | Method.key_by => true
  | Method.flatten => true
  | Method.select => true
  | Method.to_dataframe => true
  | Method.to_pandas => true
  | Method.export_mongodb => true
  | Method.explode => true
  | Method.typecheck => true

/-- What kind of value the method returns to the caller, read off the
source: a handle wrapped in one of the three facade classes, a plain
unwrapped value (count, boolean, string, schema, names, pandas frame), or
None for side-effect-only methods. -/
inductive RetKind where
  | keyTableFacade
  | variantDatasetFacade
  | dataFrameFacade
  | rawValue
  | noneValue
deriving DecidableEq, Fintype

/-- True exactly for the facade kinds. -/
def RetKind.isFacade : RetKind → Bool
  | RetKind.keyTableFacade => true
  | RetKind.variantDatasetFacade => true
  | RetKind.dataFrameFacade => true
  | _ => false

/-- The return kind of each method, read off its return statement in the
source. -/
def returnKind : Method → RetKind
  | Method.grep => RetKind.noneValue
  | Method.import_annotations_table => RetKind.variantDatasetFacade
  | Method.import_bgen => RetKind.variantDatasetFacade
  | Method.import_gen => RetKind.variantDatasetFacade
  | Method.import_keytable => RetKind.keyTableFacade
  | Method.import_plink => RetKind.variantDatasetFacade
  | Method.read => RetKind.variantDatasetFacade
  | Method.write_partitioning => RetKind.noneValue
  | Method.import_vcf => RetKind.variantDatasetFacade
  | Method.index_bgen => RetKind.noneValue
  | Method.balding_nichols_model => RetKind.variantDatasetFacade
  | Method.dataframe_to_keytable => RetKind.keyTableFacade
  | Method.stop => RetKind.noneValue
  | Method.repr => RetKind.rawValue
  | Method.num_columns => RetKind.rawValue
  | Method.schema => RetKind.rawValue
  | Method.key_names => RetKind.rawValue
  | Method.column_names => RetKind.rawValue
  | Method.count_rows => RetKind.rawValue
  | Method.same => RetKind.rawValue
  | Method.export_ => RetKind.noneValue
  | Method.filter => RetKind.keyTableFacade
  | Method.annotate => RetKind.keyTableFacade
  | Method.join => RetKind.keyTableFacade
  | Method.aggregate_by_key => RetKind.keyTableFacade
  | Method.forall_ => RetKind.rawValue
  | Method.exists_ => RetKind.rawValue
  | Method.rename => RetKind.keyTableFacade
  | Method.expand_types => RetKind.keyTableFacade
  | Method.key_by => RetKind.keyTableFacade
  | Method.flatten => RetKind.keyTableFacade
  | Method.select => RetKind.keyTableFacade
  | Method.to_dataframe => RetKind.dataFrameFacade
  | Method.to_pandas => RetKind.rawValue
  | Method.export_mongodb => RetKind.noneValue
  | Method.explode => RetKind.keyTableFacade
  | Method.typecheck => RetKind.noneValue

/-- Whether the (final) remote call the method makes returns a handle to a
new remote dataset, table or dataframe object, read off the source: true
for the import and read methods, the generator, the dataframe conversions
and the KeyTable transformations; false for side-effect calls and calls
returning plain data (counts, booleans, names, signatures, pandas data). -/
def producesNewRemoteHandle : Method → Bool
  | Method.grep => false
  | Method.import_annotations_table => true
  | Method.import_bgen => true
  | Method.import_gen => true
  | Method.import_keytable => true
  | Method.import_plink => true
  | Method.read => true
  | Method.write_partitioning => false
  | Method.import_vcf => true
  | Method.index_bgen => false
  | Method.balding_nichols_model => true
  | Method.dataframe_to_keytable => true
  | Method.stop => false
  | Method.repr => false
  | Method.num_columns => false
  | Method.schema => false
  | Method.key_names => false
  | Method.column_names => false
  | Method.count_rows => false
  | Method.same => false
  | Method.export_ => false
  | Method.filter => true
  | Method.annotate => true
  | Method.join => true
  | Method.aggregate_by_key => true
  | Method.forall_ => false
  | Method.exists_ => false
  | Method.rename => true
  | Method.expand_types => true
  | Method.key_by => true
  | Method.flatten => true
  | Method.select => true
  | Method.to_dataframe => true
  | Method.to_pandas => false
  | Method.export_mongodb => false
  | Method.explode => true
  | Method.typecheck => false

/-- Outcome of one python-level method invocation: a normal value (a
handle, for the calls that return one), a `Py4JJavaError` escaping from the
bridge with the remote error message, or a local hail `FatalError` carrying
a message. -/
inductive PyOutcome where
  | ok (value : Nat)
  | py4jError (msg : String)
  | fatalError (msg : String)
deriving DecidableEq

/-- Modelled from the spec: the `handle_py4j` decorator (hail/java.py, not
under src/) catches a `Py4JJavaError` raised by the wrapped call and
raises a local `FatalError` carrying the remote error's message verbatim;
normal results pass through. -/
def handle_py4j : PyOutcome → PyOutcome
  | PyOutcome.ok v => PyOutcome.ok v
  | PyOutcome.py4jError msg => PyOutcome.fatalError msg
  | PyOutcome.fatalError msg => PyOutcome.fatalError msg

/-- The outcome a caller of the given method observes when the underlying
remote invocation produces `r`: methods decorated with `@handle_py4j` pass
it through the decorator, undecorated methods let it propagate as is. -/
def methodOutcome (m : Method) (r : PyOutcome) : PyOutcome :=
  if decoratedHandlePy4j m then handle_py4j r else r

/-- A concrete HailContext state used in concrete instances: distinct
handles for the remote context, spark context, sql contexts, and a live
local SparkContext reference. -/
def hc0 : HailContextState :=
  { _jhc := 0, _jsc := 1, _jsql_context := 2, _sql_context := 3, sc := some 4 }

/-- A concrete remote KeyTable used in concrete instances: the kt_example1
table from the keytable.py doc comments (8 columns, key ID, 4 rows). -/
def jktExample : JKeyTable :=
  { nFields := 8
  , signature :=
      { fields := [("ID", "Int"), ("HT", "Int"), ("SEX", "String"),
                   ("X", "Int"), ("Z", "Int"), ("C1", "Int"),
                   ("C2", "Int"), ("C3", "Int")] }
  , keyNames := ["ID"]
  , fieldNames := ["ID", "HT", "SEX", "X", "Z", "C1", "C2", "C3"]
  , nRows := 4 }

/-- Claim C1: the claim says import_bgen forwards the received value of
`compress` to the remote importBgens call; the code instead passes the
literal True in the compress position for every value of `compress`, so
the call made for compress = false diverges from the claim. -/
theorem import_bgen_passes_literal_true_for_compress :
    ∀ cp : Bool,
      (HailContext.import_bgen hc0 (Sum.inl "data/example.bgen") 1 none none
          cp 7).2 =
        [RemoteCall.importBgens ["data/example.bgen"] none 1 none true] := by
  intro cp
  rfl

/-- Claim C2 counterexample: KeyTable.join is a public remote-calling
method, yet a Py4JJavaError raised by its remote call propagates
untranslated (join lacks the handle_py4j decorator), so it is false that
every public method translates remote failures into a local exception. -/
theorem not_all_methods_translate_remote_errors :
    ¬ (∀ m : Method, isPublic m = true →
        ∀ msg : String,
          methodOutcome m (PyOutcome.py4jError msg) =
            PyOutcome.fatalError msg) := by
  intro h
  have hj := h Method.join rfl "remote failure"
  simp [methodOutcome, decoratedHandlePy4j] at hj

/-- Claim C2 (amended): every public remote-calling method of HailContext
and KeyTable except KeyTable.join, HailContext.stop and the four property
accessors is wrapped by handle_py4j and therefore turns a Py4JJavaError of
its remote call into a local FatalError carrying the remote message
verbatim. -/
theorem decorated_public_methods_translate_remote_errors :
    ∀ m : Method, isPublic m = true →
      m ∉ [Method.join, Method.stop, Method.num_columns, Method.schema,
           Method.key_names, Method.column_names] →
      ∀ msg : String,
        methodOutcome m (PyOutcome.py4jError msg) =
          PyOutcome.fatalError msg := by
  intro m hpub hmem msg
  cases m <;>
    simp_all [methodOutcome, decoratedHandlePy4j, handle_py4j, isPublic]

/-- Claim C2 witness: KeyTable.filter concretely translates a remote
failure into a local FatalError with the same message. -/
theorem decorated_public_methods_translate_remote_errors_witness :
    methodOutcome Method.filter (PyOutcome.py4jError "boom") =
      PyOutcome.fatalError "boom" :=
  decorated_public_methods_translate_remote_errors Method.filter rfl
    (by decide) "boom"

/-- Claim C3 counterexample: HailContext.grep returns None rather than a
wrapped handle, so it is false that every public method returns its remote
result wrapped in a facade object (KeyTable.count_rows, returning a plain
count, fails the claim as well). -/
theorem not_all_methods_return_wrapped_handles :
    ¬ (∀ m : Method, isPublic m = true →
        (returnKind m).isFacade = true) := by
  intro h
  have hg := h Method.grep rfl
  simp [returnKind, RetKind.isFacade] at hg

/-- Claim C3 (amended): every method whose remote call returns a handle to
a new remote dataset, table or dataframe wraps that handle in the
corresponding facade object (KeyTable, VariantDataset or DataFrame); in
particular filter wraps the returned handle in a freshly initialized
KeyTable and import_bgen wraps the returned handle in a VariantDataset.
Methods whose remote calls return plain data return it unwrapped, and
side-effect methods return None. -/
theorem handle_producing_methods_wrap_results :
    (∀ m : Method, producesNewRemoteHandle m = true →
        (returnKind m).isFacade = true)
    ∧ (∀ (kt : KeyTable) (c : String) (keep : Bool) (resp : Nat),
        (kt.filter c keep resp).1 = KeyTable.init kt.hc resp)
    ∧ (∀ (h : HailContextState) (p : Sum String (List String)) (t : Rat)
        (sf : Option String) (np : Option Nat) (cp : Bool) (resp : Nat),
        (HailContext.import_bgen h p t sf np cp resp).1 =
          { hc := h, _jvds := resp }) := by
  refine ⟨?_, ?_, ?_⟩
  · intro m hm
    cases m <;>
      simp_all [producesNewRemoteHandle, returnKind, RetKind.isFacade]
  · intro kt c keep resp
    rfl
  · intro h p t sf np cp resp
    rfl

/-- Claim C3 witness: KeyTable.filter produces a new remote handle and its
return kind is a facade. -/
theorem handle_producing_methods_wrap_results_witness :
    (returnKind Method.filter).isFacade = true :=
  handle_producing_methods_wrap_results.1 Method.filter rfl

/-- Claim C4 counterexample: reading the num_columns property on a freshly
constructed KeyTable writes the memoization field _num_columns, so
KeyTable operations do read and write local fields other than the remote
handle and the context reference. -/
theorem num_columns_read_writes_local_cache :
    ((KeyTable.init hc0 11).num_columns jktExample).2.1 ≠
      KeyTable.init hc0 11 := by
  decide

/-- Claim C4 (amended): a KeyTable object consists of exactly the context
reference, the remote handle and four memoization fields initialized to
None by the constructor; a property read changes no local state other than
populating its own memoization field. -/
theorem keytable_local_state_is_handle_context_and_caches :
    ∀ (h : HailContextState) (j : Nat) (kt : KeyTable) (r : JKeyTable),
      ((KeyTable.init h j).hc = h
        ∧ (KeyTable.init h j)._jkt = j
        ∧ (KeyTable.init h j)._schema = none
        ∧ (KeyTable.init h j)._num_columns = none
        ∧ (KeyTable.init h j)._key_names = none
        ∧ (KeyTable.init h j)._column_names = none)
      ∧ ((kt.num_columns r).2.1.hc = kt.hc
        ∧ (kt.num_columns r).2.1._jkt = kt._jkt
        ∧ (kt.num_columns r).2.1._schema = kt._schema
        ∧ (kt.num_columns r).2.1._key_names = kt._key_names
        ∧ (kt.num_columns r).2.1._column_names = kt._column_names)
      ∧ ((kt.schema r).2.1.hc = kt.hc
        ∧ (kt.schema r).2.1._jkt = kt._jkt
        ∧ (kt.schema r).2.1._num_columns = kt._num_columns
        ∧ (kt.schema r).2.1._key_names = kt._key_names
        ∧ (kt.schema r).2.1._column_names = kt._column_names)
      ∧ ((kt.key_names r).2.1.hc = kt.hc
        ∧ (kt.key_names r).2.1._jkt = kt._jkt
        ∧ (kt.key_names r).2.1._schema = kt._schema
        ∧ (kt.key_names r).2.1._num_columns = kt._num_columns
        ∧ (kt.key_names r).2.1._column_names = kt._column_names)
      ∧ ((kt.column_names r).2.1.hc = kt.hc
        ∧ (kt.column_names r).2.1._jkt = kt._jkt
        ∧ (kt.column_names r).2.1._schema = kt._schema
        ∧ (kt.column_names r).2.1._num_columns = kt._num_columns
        ∧ (kt.column_names r).2.1._key_names = kt._key_names) := by
  intro h j kt r
  obtain ⟨khc, kjkt, ks, kn, kk, kc⟩ := kt
  refine ⟨⟨rfl, rfl, rfl, rfl, rfl, rfl⟩, ?_, ?_, ?_, ?_⟩
  · cases kn <;> simp [KeyTable.num_columns]
  · cases ks <;> simp [KeyTable.schema]
  · cases kk <;> simp [KeyTable.key_names]
  · cases kc <;> simp [KeyTable.column_names]

/-- Claim C5 counterexample: with the default expand=True, flatten=True, a
single to_dataframe invocation makes three chained remote calls
(expandTypes, then flatten on its result, then toDF), not exactly one. -/
theorem to_dataframe_makes_three_remote_calls :
    ((KeyTable.init hc0 11).to_dataframe true true 12 13 14).2.2 =
      [RemoteCall.expandTypes 11, RemoteCall.flatten 12,
       RemoteCall.toDF 13 2]
    ∧ ((KeyTable.init hc0 11).to_dataframe true true 12 13 14).2.2.length
        ≠ 1 := by
  constructor
  · rfl
  · decide

/-- Claim C5 (amended): every facade method runs a fixed bounded
straight-line sequence of remote calls: the query, export and
transformation methods make exactly one; select and key_by make one extra
accessor call when the relevant property is uncached (at most two in
total); to_dataframe makes one toDF call plus one call per enabled
conversion flag; to_pandas adds a final toPandas call. -/
theorem remote_call_traces_are_bounded :
    ∀ (kt right : KeyTable) (r : JKeyTable) (c how mode out : String)
      (keep e f b : Bool) (ex : Sum String (List String)) (ra : RenameArg)
      (cs : List String) (tf : Option String) (t : Rat)
      (np : Option Nat) (r1 r2 r3 : Nat),
      (kt.count_rows r).2.2.length = 1
      ∧ (kt.same right b).2.2.length = 1
      ∧ (kt.export_ out tf).2.2.length = 1
      ∧ (kt.filter c keep r1).2.2.length = 1
      ∧ (kt.annotate ex r1).2.2.length = 1
      ∧ (kt.join right how r1).2.2.length = 1
      ∧ (kt.aggregate_by_key ex ex r1).2.2.length = 1
      ∧ (kt.forall_ c b).2.2.length = 1
      ∧ (kt.exists_ c b).2.2.length = 1
      ∧ (kt.rename ra r1).2.2.length = 1
      ∧ (kt.expand_types r1).2.2.length = 1
      ∧ (kt.flatten r1).2.2.length = 1
      ∧ (kt.explode ex r1).2.2.length = 1
      ∧ (kt.export_mongodb mode).2.2.length = 1
      ∧ (kt.key_by cs r r1).2.2.length ≤ 2
      ∧ (kt.select cs r r1).2.2.length ≤ 2
      ∧ (kt.to_dataframe e f r1 r2 r3).2.2.length =
          (if e then 1 else 0) + (if f then 1 else 0) + 1
      ∧ (kt.to_pandas e f r1 r2 r3).2.2.length =
          (if e then 1 else 0) + (if f then 1 else 0) + 2
      ∧ (HailContext.grep kt.hc c ex r1).2.length = 1
      ∧ (HailContext.import_bgen kt.hc ex t tf np keep r1).2.length = 1
      ∧ (HailContext.stop kt.hc).2.length = 1 := by
  intro kt right r c how mode out keep e f b ex ra cs tf t np r1 r2 r3
  obtain ⟨khc, kjkt, ks, kn, kk, kc⟩ := kt
  refine ⟨rfl, rfl, rfl, rfl, rfl, rfl, rfl, rfl, rfl, rfl, rfl, rfl, rfl,
    rfl, ?_, ?_, ?_, ?_, rfl, rfl, rfl⟩
  · cases kc <;> simp [KeyTable.key_by, KeyTable.column_names]
  · cases kk <;> simp [KeyTable.select, KeyTable.key_names]
  · cases e <;> cases f <;> rfl
  · cases e <;> cases f <;> rfl

/-- Claim C6 counterexample: key_by on a KeyTable whose column_names cache
is cold populates the receiver's _column_names field, so the receiver's
fields are not all the same before and after the call. -/
theorem key_by_populates_receiver_cache :
    ((KeyTable.init hc0 11).key_by ["ID"] jktExample 12).2.1 ≠
      KeyTable.init hc0 11 := by
  decide

/-- Claim C6 (amended): every KeyTable transformation method returns a
freshly constructed KeyTable wrapping the handle returned by the remote
call and leaves the receiver's remote handle and context reference
unchanged; all transformations leave every receiver field unchanged,
except that key_by and select may populate the receiver's _column_names
(respectively _key_names) memoization field on first use, preserving all
other fields. -/
theorem transformations_return_fresh_keytable_and_preserve_receiver :
    ∀ (kt right : KeyTable) (r : JKeyTable) (c how : String) (keep : Bool)
      (ex : Sum String (List String)) (ra : RenameArg) (cs : List String)
      (resp : Nat),
      ((kt.filter c keep resp).1 = KeyTable.init kt.hc resp
        ∧ (kt.filter c keep resp).2.1 = kt)
      ∧ ((kt.annotate ex resp).1 = KeyTable.init kt.hc resp
        ∧ (kt.annotate ex resp).2.1 = kt)
      ∧ ((kt.join right how resp).1 = KeyTable.init kt.hc resp
        ∧ (kt.join right how resp).2.1 = kt)
      ∧ ((kt.aggregate_by_key ex ex resp).1 = KeyTable.init kt.hc resp
        ∧ (kt.aggregate_by_key ex ex resp).2.1 = kt)
      ∧ ((kt.rename ra resp).1 = KeyTable.init kt.hc resp
        ∧ (kt.rename ra resp).2.1 = kt)
      ∧ ((kt.expand_types resp).1 = KeyTable.init kt.hc resp
        ∧ (kt.expand_types resp).2.1 = kt)
      ∧ ((kt.flatten resp).1 = KeyTable.init kt.hc resp
        ∧ (kt.flatten resp).2.1 = kt)
      ∧ ((kt.explode ex resp).1 = KeyTable.init kt.hc resp
        ∧ (kt.explode ex resp).2.1 = kt)
      ∧ ((kt.key_by cs r resp).1 = KeyTable.init kt.hc resp
        ∧ (kt.key_by cs r resp).2.1.hc = kt.hc
        ∧ (kt.key_by cs r resp).2.1._jkt = kt._jkt
        ∧ (kt.key_by cs r resp).2.1._schema = kt._schema
        ∧ (kt.key_by cs r resp).2.1._num_columns = kt._num_columns
        ∧ (kt.key_by cs r resp).2.1._key_names = kt._key_names)
      ∧ ((kt.select cs r resp).1 = KeyTable.init kt.hc resp
        ∧ (kt.select cs r resp).2.1.hc = kt.hc
        ∧ (kt.select cs r resp).2.1._jkt = kt._jkt
        ∧ (kt.select cs r resp).2.1._schema = kt._schema
        ∧ (kt.select cs r resp).2.1._num_columns = kt._num_columns
        ∧ (kt.select cs r resp).2.1._column_names = kt._column_names) := by
  intro kt right r c how keep ex ra cs resp
  obtain ⟨khc, kjkt, ks, kn, kk, kc⟩ := kt
  refine ⟨⟨rfl, rfl⟩, ⟨rfl, rfl⟩, ⟨rfl, rfl⟩, ⟨rfl, rfl⟩, ⟨rfl, rfl⟩,
    ⟨rfl, rfl⟩, ⟨rfl, rfl⟩, ⟨rfl, rfl⟩, ?_, ?_⟩
  · cases kc <;> simp [KeyTable.key_by, KeyTable.column_names, KeyTable.init]
  · cases kk <;> simp [KeyTable.select, KeyTable.key_names, KeyTable.init]

/-- Claim C7: select passes to the remote select call, as the new key
names, exactly those members of the key_names property value that occur in
the requested column_names, in the order in which they appear among the
key names (a sublist of the key names, not ordered by column_names); that
select call is the final remote call of the invocation. -/
theorem select_key_names_filtered_in_key_order :
    ∀ (kt : KeyTable) (cs : List String) (r : JKeyTable) (resp : Nat),
      ∃ nk : List String,
        ((kt.select cs r resp).2.2).getLast? =
            some (RemoteCall.select kt._jkt cs nk)
        ∧ nk.Sublist (kt.key_names r).1
        ∧ ∀ k : String, k ∈ nk ↔ (k ∈ (kt.key_names r).1 ∧ k ∈ cs) := by
  intro kt cs r resp
  refine ⟨(kt.key_names r).1.filter (fun k => decide (k ∈ cs)), ?_, ?_, ?_⟩
  · simp [KeyTable.select]
  · exact List.filter_sublist _
  · intro k
    simp [List.mem_filter]

/-- Claim C8: exploding a single column given as a string makes the same
remote call and returns the same result as exploding the one-element list
containing that column name. -/
theorem explode_string_equals_singleton_list :
    ∀ (kt : KeyTable) (s : String) (resp : Nat),
      kt.explode (Sum.inl s) resp = kt.explode (Sum.inr [s]) resp := by
  intro kt s resp
  rfl

/-- Claim C9: the four properties num_columns, schema, key_names and
column_names are memoized: a second read returns the value of the first
read even against a remote object now giving different answers, the second
read makes no remote call, and any single read makes at most one remote
call. -/
theorem properties_memoized :
    ∀ (kt : KeyTable) (r1 r2 : JKeyTable),
      ((((kt.num_columns r1).2.1).num_columns r2).1 = (kt.num_columns r1).1
        ∧ (((kt.num_columns r1).2.1).num_columns r2).2.2 = []
        ∧ (kt.num_columns r1).2.2.length ≤ 1)
      ∧ ((((kt.schema r1).2.1).schema r2).1 = (kt.schema r1).1
        ∧ (((kt.schema r1).2.1).schema r2).2.2 = []
        ∧ (kt.schema r1).2.2.length ≤ 1)
      ∧ ((((kt.key_names r1).2.1).key_names r2).1 = (kt.key_names r1).1
        ∧ (((kt.key_names r1).2.1).key_names r2).2.2 = []
        ∧ (kt.key_names r1).2.2.length ≤ 1)
      ∧ ((((kt.column_names r1).2.1).column_names r2).1 =
            (kt.column_names r1).1
        ∧ (((kt.column_names r1).2.1).column_names r2).2.2 = []
        ∧ (kt.column_names r1).2.2.length ≤ 1) := by
  intro kt r1 r2
  obtain ⟨khc, kjkt, ks, kn, kk, kc⟩ := kt
  refine ⟨?_, ?_, ?_, ?_⟩
  · cases kn <;> simp [KeyTable.num_columns]
  · cases ks <;> simp [KeyTable.schema]
  · cases kk <;> simp [KeyTable.key_names]
  · cases kc <;> simp [KeyTable.column_names]

end Hail
